import Mathlib

/-
  Verification of the billetera-digital back end (Pixel Money).

  Shallow embedding of the Balance Store (balance_service), the Ledger /
  SAGA Orchestrator (ledger_service) and the loan endpoints, translated
  from the Python sources.  Money amounts are modelled as exact rationals,
  matching the services use of Decimal for currency arithmetic; SQL row
  updates become list updates; Cassandra writes become list inserts with
  Cassandra upsert semantics for the idempotency table; HTTP failures are
  Except values carrying the status code.  Each endpoint handler becomes a
  state-passing function returning the post-state together with either the
  response value or the HTTP error code, with an error always leaving the
  relational state as the handler left it (SQLAlchemy rollback on raise).
-/

/-! ## Balance Store data model (balance_service/models.py) -/

/-- Row of the accounts table: user id, fixed-point balance, version. -/
structure Account where
  user_id : Nat
  balance : ℚ
  version : Nat
deriving DecidableEq

/-- Row of the group_accounts table. -/
structure GroupAccount where
  group_id : Nat
  balance : ℚ
  version : Nat
deriving DecidableEq

/-- The relational state owned by the Balance Store. -/
structure BalanceDB where
  accounts : List Account
  groups : List GroupAccount
deriving DecidableEq

/-- Errors raised by the Balance Store endpoints. -/
inductive BalanceErr
  | notFound
  | insufficientFunds
  | conflict
deriving DecidableEq

/-- HTTP status code attached to each Balance Store error. -/
def BalanceErr.httpStatus : BalanceErr → Nat
  | .notFound => 404
  | .insufficientFunds => 400
  | .conflict => 409

/-- The query filter(Account.user_id == uid).first() used by every endpoint. -/
def findAccount (db : BalanceDB) (uid : Nat) : Option Account :=
  db.accounts.find? (fun a => a.user_id == uid)

/-- The query filter(GroupAccount.group_id == gid).first(). -/
def findGroup (db : BalanceDB) (gid : Nat) : Option GroupAccount :=
  db.groups.find? (fun g => g.group_id == gid)

/-- Writing the new balance of the locked account row. -/
def writeAccountBalance (l : List Account) (uid : Nat) (b : ℚ) : List Account :=
  l.map (fun a => if a.user_id == uid then { a with balance := b } else a)

/-- Writing the new balance of the locked group row; the group_accounts
table has a version_id_col, so the version counter is bumped on write. -/
def writeGroupBalance (l : List GroupAccount) (gid : Nat) (b : ℚ) : List GroupAccount :=
  l.map (fun g => if g.group_id == gid then { g with balance := b, version := g.version + 1 } else g)

/-! ## Balance Store endpoints (balance_service/main.py)

Each returns the post-state and either the response payload (the new
balance of the touched row) or the error; on error the transaction is
rolled back, so the returned state is the input state. -/

/-- POST /accounts: creates the account with balance 0, 409 on duplicate. -/
def createAccount (db : BalanceDB) (uid : Nat) : BalanceDB × Except BalanceErr Unit :=
  match findAccount db uid with
  | some _ => (db, .error .conflict)
  | none => ({ db with accounts := db.accounts ++ [{ user_id := uid, balance := 0, version := 1 }] }, .ok ())

/-- POST /group_accounts. -/
def createGroupAccount (db : BalanceDB) (gid : Nat) : BalanceDB × Except BalanceErr Unit :=
  match findGroup db gid with
  | some _ => (db, .error .conflict)
  | none => ({ db with groups := db.groups ++ [{ group_id := gid, balance := 0, version := 1 }] }, .ok ())

/-- POST /balance/check: advisory funds check, mutates nothing. -/
def checkFunds (db : BalanceDB) (uid : Nat) (amount : ℚ) : Except BalanceErr Unit :=
  match findAccount db uid with
  | none => .error .notFound
  | some a => if a.balance < amount then .error .insufficientFunds else .ok ()

/-- POST /balance/credit: locked read-modify-write, no amount validation. -/
def creditBalance (db : BalanceDB) (uid : Nat) (amount : ℚ) : BalanceDB × Except BalanceErr ℚ :=
  match findAccount db uid with
  | none => (db, .error .notFound)
  | some a =>
      ({ db with accounts := writeAccountBalance db.accounts uid (a.balance + amount) },
       .ok (a.balance + amount))

/-- POST /balance/debit: locked read-modify-write, requires balance not
below the amount, no amount validation. -/
def debitBalance (db : BalanceDB) (uid : Nat) (amount : ℚ) : BalanceDB × Except BalanceErr ℚ :=
  match findAccount db uid with
  | none => (db, .error .notFound)
  | some a =>
      if a.balance < amount then (db, .error .insufficientFunds)
      else
        ({ db with accounts := writeAccountBalance db.accounts uid (a.balance - amount) },
         .ok (a.balance - amount))

/-- POST /group_balance/credit. -/
def creditGroupBalance (db : BalanceDB) (gid : Nat) (amount : ℚ) : BalanceDB × Except BalanceErr ℚ :=
  match findGroup db gid with
  | none => (db, .error .notFound)
  | some g =>
      ({ db with groups := writeGroupBalance db.groups gid (g.balance + amount) },
       .ok (g.balance + amount))

/-- POST /group_balance/debit. -/
def debitGroupBalance (db : BalanceDB) (gid : Nat) (amount : ℚ) : BalanceDB × Except BalanceErr ℚ :=
  match findGroup db gid with
  | none => (db, .error .notFound)
  | some g =>
      if g.balance < amount then (db, .error .insufficientFunds)
      else
        ({ db with groups := writeGroupBalance db.groups gid (g.balance - amount) },
         .ok (g.balance - amount))

/-! ## Sequences of Balance Store mutations (for the invariant claims) -/

/-- One Balance Store mutation request. -/
inductive BOp
  | credit (uid : Nat) (amount : ℚ)
  | debit (uid : Nat) (amount : ℚ)
  | creditGroup (gid : Nat) (amount : ℚ)
  | debitGroup (gid : Nat) (amount : ℚ)
deriving DecidableEq

/-- The amount carried by a mutation request. -/
def BOp.amount : BOp → ℚ
  | .credit _ a => a
  | .debit _ a => a
  | .creditGroup _ a => a
  | .debitGroup _ a => a

/-- Applying one mutation; a rejected request rolls back and leaves the
state unchanged, which is what the endpoint functions already return. -/
def applyBOp (db : BalanceDB) (op : BOp) : BalanceDB :=
  match op with
  | .credit u a => (creditBalance db u a).1
  | .debit u a => (debitBalance db u a).1
  | .creditGroup g a => (creditGroupBalance db g a).1
  | .debitGroup g a => (debitGroupBalance db g a).1

/-- Running a sequence of mutations. -/
def runBOps (db : BalanceDB) : List BOp → BalanceDB
  | [] => db
  | op :: rest => runBOps (applyBOp db op) rest

/-- All account and group balances are nonnegative. -/
def nonNegDB (db : BalanceDB) : Prop :=
  (∀ a ∈ db.accounts, 0 ≤ a.balance) ∧ (∀ g ∈ db.groups, 0 ≤ g.balance)

/-! ## Helper lemmas about the balance writes -/

theorem find?_writeAccountBalance (l : List Account) (uid : Nat) (b : ℚ) :
    (writeAccountBalance l uid b).find? (fun a => a.user_id == uid) =
      (l.find? (fun a => a.user_id == uid)).map (fun a => { a with balance := b }) := by
  induction l with
  | nil => simp [writeAccountBalance]
  | cons a t ih =>
      by_cases h : a.user_id = uid
      · simp [writeAccountBalance, List.find?, h]
      · have hb : (a.user_id == uid) = false := by simp [h]
        simpa [writeAccountBalance, List.find?, hb] using ih

theorem findAccount_after_write (db : BalanceDB) (l : List GroupAccount) (uid : Nat) (b : ℚ) :
    findAccount ⟨writeAccountBalance db.accounts uid b, l⟩ uid =
      (findAccount db uid).map (fun a => { a with balance := b }) := by
  simp [findAccount, find?_writeAccountBalance]

theorem mem_writeAccountBalance (l : List Account) (uid : Nat) (b : ℚ) (x : Account)
    (hx : x ∈ writeAccountBalance l uid b) :
    x ∈ l ∨ ∃ a ∈ l, x = { a with balance := b } := by
  rcases List.mem_map.mp hx with ⟨a, ha, rfl⟩
  by_cases h : (a.user_id == uid)
  · exact Or.inr ⟨a, ha, by simp [h]⟩
  · exact Or.inl (by simp only [h, if_false]; exact ha)

theorem mem_writeGroupBalance (l : List GroupAccount) (gid : Nat) (b : ℚ) (x : GroupAccount)
    (hx : x ∈ writeGroupBalance l gid b) :
    x ∈ l ∨ ∃ g ∈ l, x = { g with balance := b, version := g.version + 1 } := by
  rcases List.mem_map.mp hx with ⟨g, hg, rfl⟩
  by_cases h : (g.group_id == gid)
  · exact Or.inr ⟨g, hg, by simp [h]⟩
  · exact Or.inl (by simp only [h, if_false]; exact hg)

theorem mem_of_findAccount (db : BalanceDB) (uid : Nat) (a : Account)
    (h : findAccount db uid = some a) : a ∈ db.accounts :=
  List.mem_of_find?_eq_some (by simpa [findAccount] using h)

theorem mem_of_findGroup (db : BalanceDB) (gid : Nat) (g : GroupAccount)
    (h : findGroup db gid = some g) : g ∈ db.groups :=
  List.mem_of_find?_eq_some (by simpa [findGroup] using h)

/-- Evaluation of a debit when the account exists and has enough funds. -/
theorem debitBalance_ok (db : BalanceDB) (uid : Nat) (a : ℚ) (acct : Account)
    (hfind : findAccount db uid = some acct) (hge : ¬ acct.balance < a) :
    debitBalance db uid a =
      (⟨writeAccountBalance db.accounts uid (acct.balance - a), db.groups⟩,
       .ok (acct.balance - a)) := by
  simp [debitBalance, hfind, hge]

/-- Evaluation of a credit when the account exists. -/
theorem creditBalance_ok (db : BalanceDB) (uid : Nat) (a : ℚ) (acct : Account)
    (hfind : findAccount db uid = some acct) :
    creditBalance db uid a =
      (⟨writeAccountBalance db.accounts uid (acct.balance + a), db.groups⟩,
       .ok (acct.balance + a)) := by
  simp [creditBalance, hfind]

/-! ## Claim C1 -/

/-- Claim C1: for a debit request against an existing account with balance
b and requested amount a, if b is below a the endpoint fails with the
insufficient-funds error, which carries HTTP status 400, and the state is
unchanged; otherwise it succeeds and the stored balance becomes b minus a. -/
theorem C1_debit_funds_check (db : BalanceDB) (uid : Nat) (a : ℚ) (acct : Account)
    (hfind : findAccount db uid = some acct) :
    (acct.balance < a →
      debitBalance db uid a = (db, .error .insufficientFunds) ∧
      BalanceErr.insufficientFunds.httpStatus = 400) ∧
    (a ≤ acct.balance →
      (debitBalance db uid a).2 = .ok (acct.balance - a) ∧
      findAccount (debitBalance db uid a).1 uid = some { acct with balance := acct.balance - a }) := by
  constructor
  · intro hlt
    exact ⟨by simp [debitBalance, hfind, hlt], rfl⟩
  · intro hge
    have hnlt : ¬ acct.balance < a := not_lt.mpr hge
    rw [debitBalance_ok db uid a acct hfind hnlt]
    constructor
    · rfl
    · rw [findAccount_after_write db db.groups uid (acct.balance - a), hfind]
      rfl

/-- Concrete instantiation of the debit theorem: account with balance 50,
debits of 70 and of 20. -/
theorem C1_debit_funds_check_witness :
    (findAccount ⟨[⟨1, 50, 1⟩], []⟩ 1 = some ⟨1, 50, 1⟩) ∧
    ((50 : ℚ) < 70 ∧
      debitBalance ⟨[⟨1, 50, 1⟩], []⟩ 1 70 = (⟨[⟨1, 50, 1⟩], []⟩, .error .insufficientFunds)) ∧
    ((20 : ℚ) ≤ 50 ∧
      (debitBalance ⟨[⟨1, 50, 1⟩], []⟩ 1 20).2 = .ok ((50 : ℚ) - 20)) := by
  have hf : findAccount ⟨[⟨1, 50, 1⟩], []⟩ 1 = some ⟨1, 50, 1⟩ := by
    simp [findAccount, List.find?]
  have h := C1_debit_funds_check ⟨[⟨1, 50, 1⟩], []⟩ 1 70 ⟨1, 50, 1⟩ hf
  have h2 := C1_debit_funds_check ⟨[⟨1, 50, 1⟩], []⟩ 1 20 ⟨1, 50, 1⟩ hf
  exact ⟨hf, ⟨by norm_num, (h.1 (by norm_num)).1⟩, ⟨by norm_num, (h2.2 (by norm_num)).1⟩⟩

/-! ## Claim C2 -/

/-- Claim C2 counterexample: starting from a freshly created account, a
single credit request with amount minus one is accepted (the schema has no
positivity check) and drives the balance negative, refuting the claim that
the balance is never negative after any operation. -/
theorem C2_cex_negative_credit :
    runBOps (createAccount ⟨[], []⟩ 1).1 [.credit 1 (-1)] =
      ⟨[⟨1, -1, 1⟩], []⟩ ∧
    ¬ nonNegDB ⟨[⟨1, -1, 1⟩], []⟩ := by
  constructor
  · norm_num [createAccount, findAccount, runBOps, applyBOp, creditBalance,
      writeAccountBalance, List.find?]
  · intro h
    have := h.1 ⟨1, -1, 1⟩ (by simp)
    norm_num at this

theorem nonNeg_creditBalance (db : BalanceDB) (uid : Nat) (a : ℚ)
    (hamt : 0 ≤ a) (h : nonNegDB db) : nonNegDB (creditBalance db uid a).1 := by
  obtain ⟨ha, hg⟩ := h
  cases hf : findAccount db uid with
  | none => simp only [creditBalance, hf]; exact ⟨ha, hg⟩
  | some acct =>
      simp only [creditBalance, hf]
      refine ⟨?_, hg⟩
      intro x hx
      rcases mem_writeAccountBalance _ _ _ _ hx with hmem | ⟨b, _, rfl⟩
      · exact ha x hmem
      · have hacct := ha acct (mem_of_findAccount db uid acct hf)
        simp only
        linarith

theorem nonNeg_debitBalance (db : BalanceDB) (uid : Nat) (a : ℚ)
    (h : nonNegDB db) : nonNegDB (debitBalance db uid a).1 := by
  obtain ⟨ha, hg⟩ := h
  cases hf : findAccount db uid with
  | none => simp only [debitBalance, hf]; exact ⟨ha, hg⟩
  | some acct =>
      by_cases hlt : acct.balance < a
      · simp only [debitBalance, hf, if_pos hlt]; exact ⟨ha, hg⟩
      · simp only [debitBalance, hf, if_neg hlt]
        refine ⟨?_, hg⟩
        intro x hx
        rcases mem_writeAccountBalance _ _ _ _ hx with hmem | ⟨b, _, rfl⟩
        · exact ha x hmem
        · have : a ≤ acct.balance := not_lt.mp hlt
          simp only
          linarith

theorem nonNeg_creditGroupBalance (db : BalanceDB) (gid : Nat) (a : ℚ)
    (hamt : 0 ≤ a) (h : nonNegDB db) : nonNegDB (creditGroupBalance db gid a).1 := by
  obtain ⟨ha, hg⟩ := h
  cases hf : findGroup db gid with
  | none => simp only [creditGroupBalance, hf]; exact ⟨ha, hg⟩
  | some grp =>
      simp only [creditGroupBalance, hf]
      refine ⟨ha, ?_⟩
      intro x hx
      rcases mem_writeGroupBalance _ _ _ _ hx with hmem | ⟨b, _, rfl⟩
      · exact hg x hmem
      · have hgrp := hg grp (mem_of_findGroup db gid grp hf)
        simp only
        linarith

theorem nonNeg_debitGroupBalance (db : BalanceDB) (gid : Nat) (a : ℚ)
    (h : nonNegDB db) : nonNegDB (debitGroupBalance db gid a).1 := by
  obtain ⟨ha, hg⟩ := h
  cases hf : findGroup db gid with
  | none => simp only [debitGroupBalance, hf]; exact ⟨ha, hg⟩
  | some grp =>
      by_cases hlt : grp.balance < a
      · simp only [debitGroupBalance, hf, if_pos hlt]; exact ⟨ha, hg⟩
      · simp only [debitGroupBalance, hf, if_neg hlt]
        refine ⟨ha, ?_⟩
        intro x hx
        rcases mem_writeGroupBalance _ _ _ _ hx with hmem | ⟨b, _, rfl⟩
        · exact hg x hmem
        · have : a ≤ grp.balance := not_lt.mp hlt
          simp only
          linarith

theorem nonNeg_applyBOp (db : BalanceDB) (op : BOp)
    (hamt : 0 ≤ op.amount) (h : nonNegDB db) : nonNegDB (applyBOp db op) := by
  cases op with
  | credit u a =>
      simp only [BOp.amount] at hamt
      simp only [applyBOp]
      exact nonNeg_creditBalance db u a hamt h
  | debit u a =>
      simp only [applyBOp]
      exact nonNeg_debitBalance db u a h
  | creditGroup g a =>
      simp only [BOp.amount] at hamt
      simp only [applyBOp]
      exact nonNeg_creditGroupBalance db g a hamt h
  | debitGroup g a =>
      simp only [applyBOp]
      exact nonNeg_debitGroupBalance db g a h

/-- Claim C2 amended: the claim holds once every requested amount is
nonnegative (the code performs no such validation, so the restriction is
needed): from any state whose balances are all nonnegative, in particular
from freshly created accounts, every sequence of credit, debit and group
credit or debit operations keeps every account and group balance
nonnegative. -/
theorem C2_balances_nonneg (ops : List BOp) (db : BalanceDB)
    (hamts : ∀ op ∈ ops, 0 ≤ op.amount) (h0 : nonNegDB db) :
    nonNegDB (runBOps db ops) := by
  induction ops generalizing db with
  | nil => simpa [runBOps] using h0
  | cons op rest ih =>
      have h1 := nonNeg_applyBOp db op (hamts op (by simp)) h0
      exact ih (applyBOp db op) (fun o ho => hamts o (by simp [ho])) h1

/-- Concrete instantiation: a fresh account and group receiving a credit
of 5, a debit of 3, a group credit of 2 and a group debit of 2 keep all
balances nonnegative. -/
theorem C2_balances_nonneg_witness :
    (∀ op ∈ [BOp.credit 1 5, BOp.debit 1 3, BOp.creditGroup 1 2, BOp.debitGroup 1 2],
      0 ≤ op.amount) ∧
    nonNegDB ⟨[⟨1, 0, 1⟩], [⟨1, 0, 1⟩]⟩ ∧
    nonNegDB (runBOps ⟨[⟨1, 0, 1⟩], [⟨1, 0, 1⟩]⟩
      [BOp.credit 1 5, BOp.debit 1 3, BOp.creditGroup 1 2, BOp.debitGroup 1 2]) := by
  have hamts : ∀ op ∈ [BOp.credit 1 5, BOp.debit 1 3, BOp.creditGroup 1 2, BOp.debitGroup 1 2],
      0 ≤ op.amount := by
    intro op hop
    simp only [List.mem_cons, List.mem_singleton] at hop
    rcases hop with rfl | rfl | rfl | rfl | h
    · norm_num [BOp.amount]
    · norm_num [BOp.amount]
    · norm_num [BOp.amount]
    · norm_num [BOp.amount]
    · cases h
  have h0 : nonNegDB ⟨[⟨1, 0, 1⟩], [⟨1, 0, 1⟩]⟩ := by
    constructor
    · intro a ha; simp only [List.mem_singleton] at ha; subst ha; norm_num
    · intro g hg; simp only [List.mem_singleton] at hg; subst hg; norm_num
  exact ⟨hamts, h0, C2_balances_nonneg _ _ hamts h0⟩

/-! ## Claim C10 -/

/-- Claim C10 counterexample: the claim quantifies over every existing
account and every negative amount, but an account whose balance is already
below the (negative) requested amount still takes the insufficient-funds
branch.  Such an account is reachable: crediting minus ten to a fresh
account leaves balance minus ten, and a debit of minus five is then
rejected rather than accepted. -/
theorem C10_cex_negative_balance :
    (creditBalance ⟨[⟨1, 0, 1⟩], []⟩ 1 (-10)).1 = ⟨[⟨1, -10, 1⟩], []⟩ ∧
    findAccount ⟨[⟨1, -10, 1⟩], []⟩ 1 = some ⟨1, -10, 1⟩ ∧
    (-5 : ℚ) < 0 ∧
    debitBalance ⟨[⟨1, -10, 1⟩], []⟩ 1 (-5) =
      (⟨[⟨1, -10, 1⟩], []⟩, .error .insufficientFunds) := by
  refine ⟨?_, ?_, by norm_num, ?_⟩
  · norm_num [creditBalance, findAccount, writeAccountBalance, List.find?]
  · simp [findAccount, List.find?]
  · have hf : findAccount ⟨[⟨1, -10, 1⟩], []⟩ 1 = some ⟨1, -10, 1⟩ := by
      simp [findAccount, List.find?]
    have hlt : (⟨1, -10, 1⟩ : Account).balance < -5 := by norm_num
    simp [debitBalance, hf, hlt]

/-- Claim C10 amended: the Balance Store schema indeed has no positivity
check, and for every existing account whose balance b is at least the
negative amount a (in particular every account with nonnegative balance),
the debit succeeds and the resulting stored balance b minus a is strictly
greater than b; a negative credit is likewise accepted unconditionally. -/
theorem C10_negative_debit_increases (db : BalanceDB) (uid : Nat) (a : ℚ) (acct : Account)
    (hfind : findAccount db uid = some acct) (hneg : a < 0) (hge : a ≤ acct.balance) :
    (debitBalance db uid a).2 = .ok (acct.balance - a) ∧
    findAccount (debitBalance db uid a).1 uid = some { acct with balance := acct.balance - a } ∧
    acct.balance < acct.balance - a ∧
    (creditBalance db uid a).2 = .ok (acct.balance + a) := by
  have hnlt : ¬ acct.balance < a := not_lt.mpr hge
  rw [debitBalance_ok db uid a acct hfind hnlt, creditBalance_ok db uid a acct hfind]
  refine ⟨rfl, ?_, by linarith, rfl⟩
  rw [findAccount_after_write db db.groups uid (acct.balance - a), hfind]
  rfl

/-- Concrete instantiation: balance 100, debit of minus 25 succeeds and
leaves balance 125. -/
theorem C10_negative_debit_increases_witness :
    (findAccount ⟨[⟨1, 100, 1⟩], []⟩ 1 = some ⟨1, 100, 1⟩) ∧
    (-25 : ℚ) < 0 ∧ (-25 : ℚ) ≤ 100 ∧
    (debitBalance ⟨[⟨1, 100, 1⟩], []⟩ 1 (-25)).2 = .ok ((100 : ℚ) - (-25)) ∧
    (100 : ℚ) < 100 - (-25) := by
  have hf : findAccount ⟨[⟨1, 100, 1⟩], []⟩ 1 = some ⟨1, 100, 1⟩ := by
    simp [findAccount, List.find?]
  have h := C10_negative_debit_increases ⟨[⟨1, 100, 1⟩], []⟩ 1 (-25) ⟨1, 100, 1⟩
    hf (by norm_num) (by norm_num)
  exact ⟨hf, by norm_num, by norm_num, h.1, h.2.2.1⟩

/-! ## Ledger data model (ledger_service/cassandra_db.py)

The transactions table is keyed by id; transactions_by_user and
transactions_by_group are the per-user and per-group projections.  The
idempotency_keys table maps a client key to the transaction id it
produced; a Cassandra INSERT has upsert semantics, so registering writes
the mapping unconditionally. -/

/-- The transaction type tags written by the Orchestrator. -/
inductive TxType
  | DEPOSIT
  | TRANSFER
  | CONTRIBUTION_SENT
  | CONTRIBUTION_RECEIVED
  | P2P_SENT
  | P2P_RECEIVED
  | GROUP_WITHDRAWAL
  | LOAN_DISBURSEMENT
  | LOAN_PAYMENT
deriving DecidableEq

/-- Ledger record statuses, including the FAILED_HTTP_code family that the
transfer endpoint builds from an unexpected HTTP status. -/
inductive TxStatus
  | PENDING
  | COMPLETED
  | PENDING_CONFIRMATION
  | FAILED_BALANCE_SVC
  | FAILED_FUNDS
  | FAILED_ACCOUNT
  | FAILED_NETWORK
  | FAILED_UNKNOWN
  | FAILED_HTTP (code : Nat)
deriving DecidableEq

/-- Whether a status belongs to the FAILED family. -/
def TxStatus.isFailed : TxStatus → Bool
  | .FAILED_BALANCE_SVC => true
  | .FAILED_FUNDS => true
  | .FAILED_ACCOUNT => true
  | .FAILED_NETWORK => true
  | .FAILED_UNKNOWN => true
  | .FAILED_HTTP _ => true
  | _ => false

/-- A row of the transactions and transactions_by_user tables (the fields
the claims are about; wallet descriptors and metadata are elided). -/
structure TxRow where
  id : Nat
  user_id : Nat
  ttype : TxType
  amount : ℚ
  status : TxStatus
deriving DecidableEq

/-- A row of the transactions_by_group projection. -/
structure GroupTxRow where
  group_id : Nat
  id : Nat
  user_id : Nat
  ttype : TxType
  amount : ℚ
  status : TxStatus
deriving DecidableEq

/-- Whole-system state seen by the Ledger orchestrator: the Balance Store
state, the three projections, the idempotency table and a counter
supplying fresh transaction ids (standing in for uuid4). -/
structure World where
  balances : BalanceDB
  transactions : List TxRow
  transactions_by_user : List TxRow
  transactions_by_group : List GroupTxRow
  idempotency_keys : List (Nat × Nat)
  nextId : Nat
deriving DecidableEq

/-- SELECT transaction_id FROM idempotency_keys WHERE key = ... -/
def lookupIdem (l : List (Nat × Nat)) (key : Nat) : Option Nat :=
  (l.find? (fun p => p.1 == key)).map (fun p => p.2)

/-- INSERT INTO idempotency_keys: Cassandra INSERT is an upsert and the
newest write for a key wins; modelled by prepending the pair, with the
first-match lookup returning the most recent write. -/
def registerIdem (l : List (Nat × Nat)) (key tx : Nat) : List (Nat × Nat) :=
  (key, tx) :: l

/-- SELECT * FROM transactions WHERE id = ... -/
def getTransactionById (w : World) (i : Nat) : Option TxRow :=
  w.transactions.find? (fun t => t.id == i)

/-- UPDATE transactions SET status = ... WHERE id = ... -/
def setTxStatusById (l : List TxRow) (i : Nat) (s : TxStatus) : List TxRow :=
  l.map (fun t => if t.id == i then { t with status := s } else t)

/-- UPDATE transactions_by_user SET status = ... WHERE user_id = ... AND id = ... -/
def setUserTxStatus (l : List TxRow) (uid i : Nat) (s : TxStatus) : List TxRow :=
  l.map (fun t => if t.user_id == uid && t.id == i then { t with status := s } else t)

/-! ## Orchestrator operations (ledger_service/main.py)

Each operation takes the idempotency key header and the replies of the
remote collaborators it contacts as parameters, and returns the new world
together with the HTTP response: the transaction record on success, the
status code on error.  The Pydantic schemas require a strictly positive
amount, which appears as the leading 422 guard. -/

/-- POST /deposit. -/
def deposit (w : World) (idemKey : Option Nat) (uid : Nat) (amount : ℚ) :
    World × Except Nat TxRow :=
  if amount ≤ 0 then (w, .error 422) else
  match idemKey with
  | none => (w, .error 400)
  | some key =>
    match lookupIdem w.idempotency_keys key with
    | some txid =>
        match getTransactionById w txid with
        | some tx => (w, .ok tx)
        | none => (w, .error 500)
    | none =>
        let txid := w.nextId
        let row : TxRow := ⟨txid, uid, .DEPOSIT, amount, .PENDING⟩
        let w1 : World := { w with nextId := w.nextId + 1,
                                   transactions := row :: w.transactions,
                                   transactions_by_user := row :: w.transactions_by_user }
        match creditBalance w1.balances uid amount with
        | (_, .error e) =>
            ({ w1 with transactions := setTxStatusById w1.transactions txid .FAILED_BALANCE_SVC,
                       transactions_by_user :=
                         setUserTxStatus w1.transactions_by_user uid txid .FAILED_BALANCE_SVC },
             .error e.httpStatus)
        | (db1, .ok _) =>
            let w2 : World := { w1 with balances := db1,
                                        idempotency_keys := registerIdem w1.idempotency_keys key txid,
                                        transactions := setTxStatusById w1.transactions txid .COMPLETED,
                                        transactions_by_user :=
                                          setUserTxStatus w1.transactions_by_user uid txid .COMPLETED }
            match getTransactionById w2 txid with
            | some tx => (w2, .ok tx)
            | none => (w2, .error 500)

/-- Outcome of the call to the external bank (Interbank / Happy Money). -/
inductive BankReply
  | accept (remoteId : Nat)
  | reject (code : Nat)
  | network
deriving DecidableEq

/-- The transfer endpoint maps an HTTP error status of a step to a ledger
status, assuming 400 means insufficient funds. -/
def failStatusFor (code : Nat) : TxStatus :=
  if code == 400 then .FAILED_FUNDS
  else if code == 404 then .FAILED_ACCOUNT
  else .FAILED_HTTP code

/-- POST /transfer (external transfer BDI to Happy Money).  The handler
compares the uppercased destination bank name against HAPPY_MONEY; the
model takes the already-uppercased name.  Note that the finalization
steps update only the transactions table, never the transactions_by_user
projection. -/
def transfer (w : World) (idemKey : Option Nat) (uid : Nat) (amount : ℚ)
    (toBank : String) (bank : BankReply) : World × Except Nat TxRow :=
  if amount ≤ 0 then (w, .error 422) else
  match idemKey with
  | none => (w, .error 400)
  | some key =>
    if !(toBank == "HAPPY_MONEY") then (w, .error 400) else
    match lookupIdem w.idempotency_keys key with
    | some txid =>
        match getTransactionById w txid with
        | some tx => (w, .ok tx)
        | none => (w, .error 500)
    | none =>
        let txid := w.nextId
        let row : TxRow := ⟨txid, uid, .TRANSFER, amount, .PENDING⟩
        let w1 : World := { w with nextId := w.nextId + 1,
                                   transactions := row :: w.transactions,
                                   transactions_by_user := row :: w.transactions_by_user }
        match checkFunds w1.balances uid amount with
        | .error e =>
            ({ w1 with transactions :=
                 setTxStatusById w1.transactions txid (failStatusFor e.httpStatus) },
             .error e.httpStatus)
        | .ok _ =>
          match bank with
          | .reject code =>
              ({ w1 with transactions := setTxStatusById w1.transactions txid (failStatusFor code) },
               .error code)
          | .network =>
              ({ w1 with transactions := setTxStatusById w1.transactions txid .FAILED_NETWORK },
               .error 503)
          | .accept _ =>
            match debitBalance w1.balances uid amount with
            | (_, .error e) =>
                ({ w1 with transactions :=
                     setTxStatusById w1.transactions txid (failStatusFor e.httpStatus) },
                 .error e.httpStatus)
            | (db1, .ok _) =>
                let w2 : World := { w1 with balances := db1,
                                            idempotency_keys := registerIdem w1.idempotency_keys key txid,
                                            transactions := setTxStatusById w1.transactions txid .COMPLETED }
                match getTransactionById w2 txid with
                | some tx => (w2, .ok tx)
                | none => (w2, .error 500)

/-- POST /contribute (BDI to BDG).  No ledger rows are written on any
failure path; on the saga failure after the debit the sender is credited
back.  On success two transactions are written: CONTRIBUTION_SENT into the
primary and per-user tables and CONTRIBUTION_RECEIVED into the primary and
per-group tables, and the key is registered against the SENT id. -/
def contribute (w : World) (idemKey : Option Nat) (uid gid : Nat) (amount : ℚ)
    (internalReply : Except Nat Unit) : World × Except Nat TxRow :=
  if amount ≤ 0 then (w, .error 422) else
  match idemKey with
  | none => (w, .error 400)
  | some key =>
    match lookupIdem w.idempotency_keys key with
    | some txid =>
        match getTransactionById w txid with
        | some tx => (w, .ok tx)
        | none => (w, .error 500)
    | none =>
        match debitBalance w.balances uid amount with
        | (_, .error e) => (w, .error e.httpStatus)
        | (db1, .ok _) =>
          match creditGroupBalance db1 gid amount with
          | (_, .error e) =>
              ({ w with balances := (creditBalance db1 uid amount).1 }, .error e.httpStatus)
          | (db2, .ok _) =>
            match internalReply with
            | .error c =>
                ({ w with balances := (creditBalance db2 uid amount).1 }, .error c)
            | .ok _ =>
                let txSent := w.nextId
                let txRecv := w.nextId + 1
                let sentRow : TxRow := ⟨txSent, uid, .CONTRIBUTION_SENT, amount, .COMPLETED⟩
                let recvRow : TxRow := ⟨txRecv, uid, .CONTRIBUTION_RECEIVED, amount, .COMPLETED⟩
                let recvGroupRow : GroupTxRow := ⟨gid, txRecv, uid, .CONTRIBUTION_RECEIVED, amount, .COMPLETED⟩
                let w2 : World := { w with balances := db2,
                                           nextId := w.nextId + 2,
                                           transactions := recvRow :: sentRow :: w.transactions,
                                           transactions_by_user := sentRow :: w.transactions_by_user,
                                           transactions_by_group := recvGroupRow :: w.transactions_by_group,
                                           idempotency_keys := registerIdem w.idempotency_keys key txSent }
                match getTransactionById w2 txSent with
                | some tx => (w2, .ok tx)
                | none => (w2, .error 500)

/-- POST /transfer/p2p.  The recipient is resolved by phone through the
auth service (authReply).  If the credit to the recipient fails after the
debit, the sender is credited back and 503 is returned; no ledger row is
written on any failure path.  On success a P2P_SENT row for the sender and
a P2P_RECEIVED row for the recipient are written to the primary and
per-user tables, and the key is registered against the SENT id. -/
def transferP2P (w : World) (idemKey : Option Nat) (senderId : Nat) (amount : ℚ)
    (authReply : Except Nat Nat) : World × Except Nat TxRow :=
  if amount ≤ 0 then (w, .error 422) else
  match idemKey with
  | none => (w, .error 400)
  | some key =>
    match lookupIdem w.idempotency_keys key with
    | some txid =>
        match getTransactionById w txid with
        | some tx => (w, .ok tx)
        | none => (w, .error 500)
    | none =>
        match authReply with
        | .error c => (w, .error c)
        | .ok rid =>
          if rid == senderId then (w, .error 400) else
          match checkFunds w.balances senderId amount with
          | .error e => (w, .error e.httpStatus)
          | .ok _ =>
            match debitBalance w.balances senderId amount with
            | (_, .error e) => (w, .error e.httpStatus)
            | (db1, .ok _) =>
              match creditBalance db1 rid amount with
              | (_, .error _) =>
                  ({ w with balances := (creditBalance db1 senderId amount).1 }, .error 503)
              | (db2, .ok _) =>
                  let txd := w.nextId
                  let txc := w.nextId + 1
                  let sentRow : TxRow := ⟨txd, senderId, .P2P_SENT, amount, .COMPLETED⟩
                  let recvRow : TxRow := ⟨txc, rid, .P2P_RECEIVED, amount, .COMPLETED⟩
                  let w2 : World := { w with balances := db2,
                                             nextId := w.nextId + 2,
                                             transactions := recvRow :: sentRow :: w.transactions,
                                             transactions_by_user := recvRow :: sentRow :: w.transactions_by_user,
                                             idempotency_keys := registerIdem w.idempotency_keys key txd }
                  match getTransactionById w2 txd with
                  | some tx => (w2, .ok tx)
                  | none => (w2, .error 500)

/-! ## Loans and account deletion (balance_service/main.py) -/

/-- Loan status enum. -/
inductive LoanStatus
  | ACTIVE
  | PAID
deriving DecidableEq

/-- Whether a loan status is ACTIVE. -/
def LoanStatus.isActive : LoanStatus → Bool
  | .ACTIVE => true
  | .PAID => false

/-- Row of the loans table (balance_service/models.py); dni, timestamps
and due_date are elided. -/
structure Loan where
  id : Nat
  user_id : Nat
  principal_amount : ℚ
  outstanding_balance : ℚ
  interest_rate : ℚ
  status : LoanStatus
deriving DecidableEq

/-- The loans table and its autoincrementing primary key. -/
structure LoanDB where
  loans : List Loan
  nextLoanId : Nat
deriving DecidableEq

/-- The query for the ACTIVE loan of a user. -/
def findActiveLoan (l : List Loan) (uid : Nat) : Option Loan :=
  l.find? (fun ln => ln.user_id == uid && ln.status.isActive)

/-- Loan limit from request_loan. -/
def MAX_LOAN : ℚ := 500

/-- Interest rate constant from request_loan (five percent). -/
def INTEREST_RATE : ℚ := 5 / 100

/-- POST /request-loan: validates the amount (Pydantic gt=0 and the
MAX_LOAN limit), refuses a second ACTIVE loan, stores the loan with
outstanding_balance the principal times one plus the rate and with the
interest_rate field holding the rate times one hundred, then disburses by
crediting the borrower; if the disbursement fails the stored loan is
deleted again, leaving the state unchanged. -/
def requestLoan (ldb : LoanDB) (db : BalanceDB) (uid : Nat) (p : ℚ) :
    (LoanDB × BalanceDB) × Except Nat Loan :=
  if p ≤ 0 then ((ldb, db), .error 422) else
  if MAX_LOAN < p then ((ldb, db), .error 400) else
  match findActiveLoan ldb.loans uid with
  | some _ => ((ldb, db), .error 400)
  | none =>
      let loan : Loan := ⟨ldb.nextLoanId, uid, p, p * (1 + INTEREST_RATE), INTEREST_RATE * 100, .ACTIVE⟩
      match creditBalance db uid p with
      | (_, .error _) => ((ldb, db), .error 503)
      | (db1, .ok _) =>
          (({ loans := loan :: ldb.loans, nextLoanId := ldb.nextLoanId + 1 }, db1), .ok loan)

/-- POST /pay-loan: finds the ACTIVE loan, debits the full outstanding
balance through the ledger, then zeroes the outstanding balance and marks
the loan PAID. -/
def payLoan (ldb : LoanDB) (db : BalanceDB) (uid : Nat) :
    (LoanDB × BalanceDB) × Except Nat Loan :=
  match findActiveLoan ldb.loans uid with
  | none => ((ldb, db), .error 404)
  | some loan =>
      match debitBalance db uid loan.outstanding_balance with
      | (_, .error e) => ((ldb, db), .error e.httpStatus)
      | (db1, .ok _) =>
          let paid : Loan := { loan with outstanding_balance := 0, status := .PAID }
          (({ ldb with loans := ldb.loans.map (fun l => if l.id == loan.id then paid else l) }, db1),
           .ok paid)

/-- DELETE /accounts/user_id: blocks only when an ACTIVE loan exists;
otherwise deletes the loan history and the account row, with no check of
the account balance. -/
def deleteAccountInternal (ldb : LoanDB) (db : BalanceDB) (uid : Nat) :
    (LoanDB × BalanceDB) × Except Nat Unit :=
  match findActiveLoan ldb.loans uid with
  | some _ => ((ldb, db), .error 400)
  | none =>
      (({ ldb with loans := ldb.loans.filter (fun l => !(l.user_id == uid)) },
        { db with accounts := db.accounts.filter (fun a => !(a.user_id == uid)) }), .ok ())

/-- Repeated issue of one orchestrator operation, collecting the responses. -/
def iterateOp (f : World → World × Except Nat TxRow) : Nat → World → World × List (Except Nat TxRow)
  | 0, w => (w, [])
  | n + 1, w =>
      let r := f w
      let rest := iterateOp f n r.1
      (rest.1, r.2 :: rest.2)

/-! ## Idempotency table lemmas -/

theorem registerIdem_fresh (l : List (Nat × Nat)) (k t : Nat) :
    registerIdem l k t = (k, t) :: l := rfl

theorem lookupIdem_registerIdem_self (l : List (Nat × Nat)) (k t : Nat) :
    lookupIdem (registerIdem l k t) k = some t := by
  simp [lookupIdem, registerIdem, List.find?]

theorem lookupIdem_registerIdem_ne (l : List (Nat × Nat)) (k t k' : Nat) (hne : k' ≠ k) :
    lookupIdem (registerIdem l k t) k' = lookupIdem l k' := by
  have hk : (k == k') = false := by
    simp only [beq_eq_false_iff_ne]
    exact fun hkk => hne hkk.symm
  simp [lookupIdem, registerIdem, List.find?, hk]

/-! ## Evaluation and replay lemmas for the orchestrator operations -/

theorem checkFunds_eval (db : BalanceDB) (uid : Nat) (amount : ℚ) (acct : Account)
    (hacct : findAccount db uid = some acct) (hfunds : ¬ acct.balance < amount) :
    checkFunds db uid amount = .ok () := by
  simp [checkFunds, hacct, hfunds]

theorem checkFunds_ok_inv (db : BalanceDB) (uid : Nat) (amount : ℚ)
    (h : checkFunds db uid amount = .ok ()) :
    ∃ acct, findAccount db uid = some acct ∧ ¬ acct.balance < amount := by
  unfold checkFunds at h
  cases hf : findAccount db uid with
  | none => simp [hf] at h
  | some acct =>
      simp only [hf] at h
      by_cases hlt : acct.balance < amount
      · simp [hlt] at h
      · exact ⟨acct, rfl, hlt⟩

/-- On an idempotency hit, deposit returns the recorded transaction
verbatim and performs no state change at all. -/
theorem deposit_replay (w : World) (key uid : Nat) (amount : ℚ) (txid : Nat) (tx : TxRow)
    (hamt : ¬ amount ≤ 0)
    (hk : lookupIdem w.idempotency_keys key = some txid)
    (htx : getTransactionById w txid = some tx) :
    deposit w (some key) uid amount = (w, .ok tx) := by
  simp [deposit, hamt, hk, htx]

/-- Evaluation of a first, successful deposit run. -/
theorem deposit_first_run (w : World) (key uid : Nat) (amount : ℚ) (acct : Account)
    (hamt : ¬ amount ≤ 0)
    (hmiss : lookupIdem w.idempotency_keys key = none)
    (hacct : findAccount w.balances uid = some acct) :
    deposit w (some key) uid amount =
      ({ balances := ⟨writeAccountBalance w.balances.accounts uid (acct.balance + amount),
                      w.balances.groups⟩,
         transactions := setTxStatusById (⟨w.nextId, uid, .DEPOSIT, amount, .PENDING⟩ :: w.transactions)
           w.nextId .COMPLETED,
         transactions_by_user :=
           setUserTxStatus (⟨w.nextId, uid, .DEPOSIT, amount, .PENDING⟩ :: w.transactions_by_user)
             uid w.nextId .COMPLETED,
         transactions_by_group := w.transactions_by_group,
         idempotency_keys := (key, w.nextId) :: w.idempotency_keys,
         nextId := w.nextId + 1 },
       .ok ⟨w.nextId, uid, .DEPOSIT, amount, .COMPLETED⟩) := by
  have hcb := creditBalance_ok w.balances uid amount acct hacct
  simp [deposit, hamt, hmiss, hcb, registerIdem, getTransactionById, setTxStatusById, List.find?]

theorem find?_writeAccountBalance_ne (l : List Account) (u u' : Nat) (b : ℚ) (hne : u' ≠ u) :
    (writeAccountBalance l u b).find? (fun a => a.user_id == u') =
      l.find? (fun a => a.user_id == u') := by
  unfold writeAccountBalance
  rw [List.find?_map]
  have hcomp : ((fun a => a.user_id == u') ∘
      fun a : Account => if a.user_id == u then { a with balance := b } else a) =
      fun a : Account => a.user_id == u' := by
    funext a
    by_cases h : (a.user_id == u)
    · simp [Function.comp, h]
    · simp [Function.comp, h]
  rw [hcomp]
  cases hf : l.find? (fun a => a.user_id == u') with
  | none => simp
  | some y =>
      have hy := List.find?_some hf
      have hy2 : y.user_id = u' := by simpa using hy
      have hyu : (y.user_id == u) = false := by
        simp only [beq_eq_false_iff_ne, hy2]
        exact hne
      simp [hyu]
      intro h
      exact absurd (hy2.symm.trans h) hne

theorem findAccount_write_ne (db : BalanceDB) (gs : List GroupAccount) (u u' : Nat) (b : ℚ)
    (hne : u' ≠ u) :
    findAccount ⟨writeAccountBalance db.accounts u b, gs⟩ u' = findAccount db u' := by
  simp only [findAccount]
  exact find?_writeAccountBalance_ne db.accounts u u' b hne

theorem find?_writeGroupBalance (l : List GroupAccount) (gid : Nat) (b : ℚ) :
    (writeGroupBalance l gid b).find? (fun g => g.group_id == gid) =
      (l.find? (fun g => g.group_id == gid)).map
        (fun g => { g with balance := b, version := g.version + 1 }) := by
  induction l with
  | nil => simp [writeGroupBalance]
  | cons g t ih =>
      by_cases h : g.group_id = gid
      · simp [writeGroupBalance, List.find?, h]
      · have hb : (g.group_id == gid) = false := by simp [h]
        simpa [writeGroupBalance, List.find?, hb] using ih

theorem findGroup_after_write (db : BalanceDB) (l : List Account) (gid : Nat) (b : ℚ) :
    findGroup ⟨l, writeGroupBalance db.groups gid b⟩ gid =
      (findGroup db gid).map (fun g => { g with balance := b, version := g.version + 1 }) := by
  simp [findGroup, find?_writeGroupBalance]

theorem creditGroupBalance_ok (db : BalanceDB) (gid : Nat) (a : ℚ) (grp : GroupAccount)
    (hfind : findGroup db gid = some grp) :
    creditGroupBalance db gid a =
      (⟨db.accounts, writeGroupBalance db.groups gid (grp.balance + a)⟩,
       .ok (grp.balance + a)) := by
  simp [creditGroupBalance, hfind]

/-- On an idempotency hit, the external transfer returns the recorded
transaction verbatim and performs no state change, whatever the bank
would have replied. -/
theorem transfer_replay (w : World) (key uid : Nat) (amount : ℚ) (toBank : String)
    (bank : BankReply) (txid : Nat) (tx : TxRow)
    (hamt : ¬ amount ≤ 0) (hbank : (toBank == "HAPPY_MONEY") = true)
    (hk : lookupIdem w.idempotency_keys key = some txid)
    (htx : getTransactionById w txid = some tx) :
    transfer w (some key) uid amount toBank bank = (w, .ok tx) := by
  simp [transfer, hamt, hbank, hk, htx]

/-- Evaluation of a first, successful external transfer run (bank
accepts, funds suffice). -/
theorem transfer_first_run (w : World) (key uid : Nat) (amount : ℚ) (toBank : String)
    (rid : Nat) (acct : Account)
    (hamt : ¬ amount ≤ 0)
    (hbank : (toBank == "HAPPY_MONEY") = true)
    (hmiss : lookupIdem w.idempotency_keys key = none)
    (hacct : findAccount w.balances uid = some acct)
    (hfunds : ¬ acct.balance < amount) :
    transfer w (some key) uid amount toBank (.accept rid) =
      ({ balances := ⟨writeAccountBalance w.balances.accounts uid (acct.balance - amount),
                      w.balances.groups⟩,
         transactions := setTxStatusById (⟨w.nextId, uid, .TRANSFER, amount, .PENDING⟩ :: w.transactions)
           w.nextId .COMPLETED,
         transactions_by_user := ⟨w.nextId, uid, .TRANSFER, amount, .PENDING⟩ :: w.transactions_by_user,
         transactions_by_group := w.transactions_by_group,
         idempotency_keys := (key, w.nextId) :: w.idempotency_keys,
         nextId := w.nextId + 1 },
       .ok ⟨w.nextId, uid, .TRANSFER, amount, .COMPLETED⟩) := by
  have hck := checkFunds_eval w.balances uid amount acct hacct hfunds
  have hdb := debitBalance_ok w.balances uid amount acct hacct hfunds
  simp [transfer, hamt, hbank, hmiss, hck, hdb, registerIdem, getTransactionById,
    setTxStatusById, List.find?]

/-- Evaluation of an external transfer that the bank rejects: the ledger
row is finalized to the FAILED status derived from the rejection code, the
response is the error, and the Balance Store is untouched. -/
theorem transfer_reject_run (w : World) (key uid : Nat) (amount : ℚ) (toBank : String) (c : Nat)
    (hamt : ¬ amount ≤ 0)
    (hbank : (toBank == "HAPPY_MONEY") = true)
    (hmiss : lookupIdem w.idempotency_keys key = none)
    (hcheck : checkFunds w.balances uid amount = .ok ()) :
    (transfer w (some key) uid amount toBank (.reject c)).1.balances = w.balances ∧
    (transfer w (some key) uid amount toBank (.reject c)).2 = .error c ∧
    getTransactionById (transfer w (some key) uid amount toBank (.reject c)).1 w.nextId =
      some ⟨w.nextId, uid, .TRANSFER, amount, failStatusFor c⟩ := by
  refine ⟨?_, ?_, ?_⟩ <;>
    simp [transfer, hamt, hbank, hmiss, hcheck, getTransactionById, setTxStatusById, List.find?]

/-- Every status that failStatusFor produces is in the FAILED family. -/
theorem isFailed_failStatusFor (c : Nat) : (failStatusFor c).isFailed = true := by
  unfold failStatusFor
  by_cases h1 : (c == 400) = true
  · simp [h1, TxStatus.isFailed]
  · by_cases h2 : (c == 404) = true
    · simp [h1, h2, TxStatus.isFailed]
    · simp [h1, h2, TxStatus.isFailed]

/-- On an idempotency hit, the group contribution returns the recorded
transaction verbatim and performs no state change. -/
theorem contribute_replay (w : World) (key uid gid : Nat) (amount : ℚ)
    (internalReply : Except Nat Unit) (txid : Nat) (tx : TxRow)
    (hamt : ¬ amount ≤ 0)
    (hk : lookupIdem w.idempotency_keys key = some txid)
    (htx : getTransactionById w txid = some tx) :
    contribute w (some key) uid gid amount internalReply = (w, .ok tx) := by
  simp [contribute, hamt, hk, htx]

/-- Evaluation of a first, successful group contribution run. -/
theorem contribute_first_run (w : World) (key uid gid : Nat) (amount : ℚ)
    (acct : Account) (grp : GroupAccount)
    (hamt : ¬ amount ≤ 0)
    (hmiss : lookupIdem w.idempotency_keys key = none)
    (hacct : findAccount w.balances uid = some acct)
    (hfunds : ¬ acct.balance < amount)
    (hgrp : findGroup w.balances gid = some grp) :
    contribute w (some key) uid gid amount (.ok ()) =
      ({ balances := ⟨writeAccountBalance w.balances.accounts uid (acct.balance - amount),
                      writeGroupBalance w.balances.groups gid (grp.balance + amount)⟩,
         transactions := ⟨w.nextId + 1, uid, .CONTRIBUTION_RECEIVED, amount, .COMPLETED⟩ ::
           ⟨w.nextId, uid, .CONTRIBUTION_SENT, amount, .COMPLETED⟩ :: w.transactions,
         transactions_by_user :=
           ⟨w.nextId, uid, .CONTRIBUTION_SENT, amount, .COMPLETED⟩ :: w.transactions_by_user,
         transactions_by_group :=
           ⟨gid, w.nextId + 1, uid, .CONTRIBUTION_RECEIVED, amount, .COMPLETED⟩ ::
             w.transactions_by_group,
         idempotency_keys := (key, w.nextId) :: w.idempotency_keys,
         nextId := w.nextId + 2 },
       .ok ⟨w.nextId, uid, .CONTRIBUTION_SENT, amount, .COMPLETED⟩) := by
  have hdb := debitBalance_ok w.balances uid amount acct hacct hfunds
  have hgrp1 : findGroup ⟨writeAccountBalance w.balances.accounts uid (acct.balance - amount),
      w.balances.groups⟩ gid = some grp := hgrp
  have hcg := creditGroupBalance_ok
    ⟨writeAccountBalance w.balances.accounts uid (acct.balance - amount), w.balances.groups⟩
    gid amount grp hgrp1
  have hfresh : ((w.nextId + 1 == w.nextId)) = false := by
    simp only [beq_eq_false_iff_ne]
    omega
  simp [contribute, hamt, hmiss, hdb, hcg, registerIdem, getTransactionById,
    setTxStatusById, List.find?, hfresh]

/-- On an idempotency hit, the P2P transfer returns the recorded
transaction verbatim and performs no state change. -/
theorem transferP2P_replay (w : World) (key senderId : Nat) (amount : ℚ)
    (authReply : Except Nat Nat) (txid : Nat) (tx : TxRow)
    (hamt : ¬ amount ≤ 0)
    (hk : lookupIdem w.idempotency_keys key = some txid)
    (htx : getTransactionById w txid = some tx) :
    transferP2P w (some key) senderId amount authReply = (w, .ok tx) := by
  simp [transferP2P, hamt, hk, htx]

/-- Evaluation of a first, successful P2P transfer run. -/
theorem transferP2P_first_run (w : World) (key senderId rid : Nat) (amount : ℚ)
    (sacct racct : Account)
    (hamt : ¬ amount ≤ 0)
    (hmiss : lookupIdem w.idempotency_keys key = none)
    (hne : (rid == senderId) = false)
    (hs : findAccount w.balances senderId = some sacct)
    (hfunds : ¬ sacct.balance < amount)
    (hr : findAccount w.balances rid = some racct) :
    transferP2P w (some key) senderId amount (.ok rid) =
      ({ balances := ⟨writeAccountBalance
                        (writeAccountBalance w.balances.accounts senderId (sacct.balance - amount))
                        rid (racct.balance + amount),
                      w.balances.groups⟩,
         transactions := ⟨w.nextId + 1, rid, .P2P_RECEIVED, amount, .COMPLETED⟩ ::
           ⟨w.nextId, senderId, .P2P_SENT, amount, .COMPLETED⟩ :: w.transactions,
         transactions_by_user := ⟨w.nextId + 1, rid, .P2P_RECEIVED, amount, .COMPLETED⟩ ::
           ⟨w.nextId, senderId, .P2P_SENT, amount, .COMPLETED⟩ :: w.transactions_by_user,
         transactions_by_group := w.transactions_by_group,
         idempotency_keys := (key, w.nextId) :: w.idempotency_keys,
         nextId := w.nextId + 2 },
       .ok ⟨w.nextId, senderId, .P2P_SENT, amount, .COMPLETED⟩) := by
  have hck := checkFunds_eval w.balances senderId amount sacct hs hfunds
  have hdb := debitBalance_ok w.balances senderId amount sacct hs hfunds
  have hrne : rid ≠ senderId := by
    intro heq
    rw [heq] at hne
    simp at hne
  have hr1 : findAccount ⟨writeAccountBalance w.balances.accounts senderId (sacct.balance - amount),
      w.balances.groups⟩ rid = some racct := by
    rw [findAccount_write_ne w.balances w.balances.groups senderId rid
      (sacct.balance - amount) hrne]
    exact hr
  have hcr := creditBalance_ok
    ⟨writeAccountBalance w.balances.accounts senderId (sacct.balance - amount), w.balances.groups⟩
    rid amount racct hr1
  have hfresh : ((w.nextId + 1 == w.nextId)) = false := by
    simp only [beq_eq_false_iff_ne]
    omega
  simp [transferP2P, hamt, hmiss, hne, hck, hdb, hcr, registerIdem, getTransactionById,
    setTxStatusById, List.find?, hfresh]

/-! ## Iteration lemmas -/

theorem iterateOp_stable (f : World → World × Except Nat TxRow) (w1 : World) (tx : TxRow)
    (h : f w1 = (w1, .ok tx)) :
    ∀ n, iterateOp f n w1 = (w1, List.replicate n (.ok tx)) := by
  intro n
  induction n with
  | zero => simp [iterateOp]
  | succ n ih => simp [iterateOp, h, ih, List.replicate]

theorem iterateOp_one_mutation (f : World → World × Except Nat TxRow) (w w1 : World) (tx : TxRow)
    (h0 : f w = (w1, .ok tx)) (h1 : f w1 = (w1, .ok tx)) :
    ∀ n, iterateOp f (n + 1) w = (w1, List.replicate (n + 1) (.ok tx)) := by
  intro n
  simp [iterateOp, h0, iterateOp_stable f w1 tx h1 n, List.replicate]

/-! ## Claim C3 -/

/-- Claim C3: for every money-moving operation (deposit, external
transfer, group contribution, P2P transfer), a request whose idempotency
key is already registered against a stored transaction returns that
transaction verbatim and performs no state change; and issuing the same
operation with the same (initially unregistered) key N+1 times performs
exactly one balance mutation, leaving the world exactly as after the
first call, with all N+1 responses equal to the first transaction. -/
theorem C3_idempotent_replay :
    (∀ w key uid txid tx (amount : ℚ), ¬ amount ≤ 0 →
      lookupIdem w.idempotency_keys key = some txid →
      getTransactionById w txid = some tx →
      deposit w (some key) uid amount = (w, .ok tx)) ∧
    (∀ w key uid toBank bank txid tx (amount : ℚ), ¬ amount ≤ 0 →
      (toBank == "HAPPY_MONEY") = true →
      lookupIdem w.idempotency_keys key = some txid →
      getTransactionById w txid = some tx →
      transfer w (some key) uid amount toBank bank = (w, .ok tx)) ∧
    (∀ w key uid gid internalReply txid tx (amount : ℚ), ¬ amount ≤ 0 →
      lookupIdem w.idempotency_keys key = some txid →
      getTransactionById w txid = some tx →
      contribute w (some key) uid gid amount internalReply = (w, .ok tx)) ∧
    (∀ w key senderId authReply txid tx (amount : ℚ), ¬ amount ≤ 0 →
      lookupIdem w.idempotency_keys key = some txid →
      getTransactionById w txid = some tx →
      transferP2P w (some key) senderId amount authReply = (w, .ok tx)) ∧
    (∀ w key uid acct n (amount : ℚ), ¬ amount ≤ 0 →
      lookupIdem w.idempotency_keys key = none →
      findAccount w.balances uid = some acct →
      ∃ w1 tx, iterateOp (fun v => deposit v (some key) uid amount) (n + 1) w =
          (w1, List.replicate (n + 1) (.ok tx)) ∧
        findAccount w1.balances uid = some { acct with balance := acct.balance + amount }) ∧
    (∀ w key uid toBank rid acct n (amount : ℚ), ¬ amount ≤ 0 →
      (toBank == "HAPPY_MONEY") = true →
      lookupIdem w.idempotency_keys key = none →
      findAccount w.balances uid = some acct →
      ¬ acct.balance < amount →
      ∃ w1 tx, iterateOp (fun v => transfer v (some key) uid amount toBank (.accept rid)) (n + 1) w =
          (w1, List.replicate (n + 1) (.ok tx)) ∧
        findAccount w1.balances uid = some { acct with balance := acct.balance - amount }) ∧
    (∀ w key uid gid acct grp n (amount : ℚ), ¬ amount ≤ 0 →
      lookupIdem w.idempotency_keys key = none →
      findAccount w.balances uid = some acct →
      ¬ acct.balance < amount →
      findGroup w.balances gid = some grp →
      ∃ w1 tx, iterateOp (fun v => contribute v (some key) uid gid amount (.ok ())) (n + 1) w =
          (w1, List.replicate (n + 1) (.ok tx)) ∧
        findAccount w1.balances uid = some { acct with balance := acct.balance - amount } ∧
        findGroup w1.balances gid =
          some { grp with balance := grp.balance + amount, version := grp.version + 1 }) ∧
    (∀ w key senderId rid sacct racct n (amount : ℚ), ¬ amount ≤ 0 →
      lookupIdem w.idempotency_keys key = none →
      (rid == senderId) = false →
      findAccount w.balances senderId = some sacct →
      ¬ sacct.balance < amount →
      findAccount w.balances rid = some racct →
      ∃ w1 tx, iterateOp (fun v => transferP2P v (some key) senderId amount (.ok rid)) (n + 1) w =
          (w1, List.replicate (n + 1) (.ok tx)) ∧
        findAccount w1.balances senderId = some { sacct with balance := sacct.balance - amount } ∧
        findAccount w1.balances rid = some { racct with balance := racct.balance + amount }) := by
  refine ⟨?_, ?_, ?_, ?_, ?_, ?_, ?_, ?_⟩
  · intro w key uid txid tx amount hamt hk htx
    exact deposit_replay w key uid amount txid tx hamt hk htx
  · intro w key uid toBank bank txid tx amount hamt hbank hk htx
    exact transfer_replay w key uid amount toBank bank txid tx hamt hbank hk htx
  · intro w key uid gid internalReply txid tx amount hamt hk htx
    exact contribute_replay w key uid gid amount internalReply txid tx hamt hk htx
  · intro w key senderId authReply txid tx amount hamt hk htx
    exact transferP2P_replay w key senderId amount authReply txid tx hamt hk htx
  · intro w key uid acct n amount hamt hmiss hacct
    have h0 := deposit_first_run w key uid amount acct hamt hmiss hacct
    refine ⟨_, _, iterateOp_one_mutation _ _ _ _ h0 ?_ n, ?_⟩
    · exact deposit_replay _ key uid amount w.nextId _ hamt
        (by simp [lookupIdem, List.find?])
        (by simp [getTransactionById, setTxStatusById, List.find?])
    · simp [findAccount_after_write, hacct]
  · intro w key uid toBank rid acct n amount hamt hbank hmiss hacct hfunds
    have h0 := transfer_first_run w key uid amount toBank rid acct hamt hbank hmiss hacct hfunds
    refine ⟨_, _, iterateOp_one_mutation _ _ _ _ h0 ?_ n, ?_⟩
    · exact transfer_replay _ key uid amount toBank (.accept rid) w.nextId _ hamt hbank
        (by simp [lookupIdem, List.find?])
        (by simp [getTransactionById, setTxStatusById, List.find?])
    · simp [findAccount_after_write, hacct]
  · intro w key uid gid acct grp n amount hamt hmiss hacct hfunds hgrp
    have h0 := contribute_first_run w key uid gid amount acct grp hamt hmiss hacct hfunds hgrp
    refine ⟨_, _, iterateOp_one_mutation _ _ _ _ h0 ?_ n, ?_, ?_⟩
    · exact contribute_replay _ key uid gid amount (.ok ()) w.nextId _ hamt
        (by simp [lookupIdem, List.find?])
        (by
          have hfresh : ((w.nextId + 1 == w.nextId)) = false := by
            simp only [beq_eq_false_iff_ne]; omega
          simp [getTransactionById, List.find?, hfresh])
    · simp [findAccount_after_write, hacct]
    · simp [findGroup_after_write, hgrp]
  · intro w key senderId rid sacct racct n amount hamt hmiss hne hs hfunds hr
    have h0 := transferP2P_first_run w key senderId rid amount sacct racct
      hamt hmiss hne hs hfunds hr
    have hrne : rid ≠ senderId := by
      intro heq
      rw [heq] at hne
      simp at hne
    have hsne : senderId ≠ rid := fun heq => hrne heq.symm
    refine ⟨_, _, iterateOp_one_mutation _ _ _ _ h0 ?_ n, ?_, ?_⟩
    · exact transferP2P_replay _ key senderId amount (.ok rid) w.nextId _ hamt
        (by simp [lookupIdem, List.find?])
        (by
          have hfresh : ((w.nextId + 1 == w.nextId)) = false := by
            simp only [beq_eq_false_iff_ne]; omega
          simp [getTransactionById, List.find?, hfresh])
    · have hx := find?_writeAccountBalance_ne
        (writeAccountBalance w.balances.accounts senderId (sacct.balance - amount))
        rid senderId (racct.balance + amount) hsne
      have hs2 : w.balances.accounts.find? (fun a => a.user_id == senderId) = some sacct := hs
      simp [findAccount, hx, find?_writeAccountBalance, hs2]
    · have hx := find?_writeAccountBalance_ne w.balances.accounts senderId rid
        (sacct.balance - amount) hrne
      have hr2 : w.balances.accounts.find? (fun a => a.user_id == rid) = some racct := hr
      simp [findAccount, find?_writeAccountBalance, hx, hr2]

/-- Concrete instantiation of the idempotency claim: a world whose key 7
is registered against stored transaction 3; replaying any of the four
operations with key 7 returns that transaction and leaves the world
untouched, even though the collaborators would fail. -/
theorem C3_idempotent_replay_witness :
    (¬ (50 : ℚ) ≤ 0) ∧
    lookupIdem [(7, 3)] 7 = some 3 ∧
    getTransactionById ⟨⟨[⟨1, 100, 1⟩], []⟩, [⟨3, 1, .DEPOSIT, 50, .COMPLETED⟩],
      [⟨3, 1, .DEPOSIT, 50, .COMPLETED⟩], [], [(7, 3)], 4⟩ 3 =
      some ⟨3, 1, .DEPOSIT, 50, .COMPLETED⟩ ∧
    deposit ⟨⟨[⟨1, 100, 1⟩], []⟩, [⟨3, 1, .DEPOSIT, 50, .COMPLETED⟩],
      [⟨3, 1, .DEPOSIT, 50, .COMPLETED⟩], [], [(7, 3)], 4⟩ (some 7) 1 50 =
      (⟨⟨[⟨1, 100, 1⟩], []⟩, [⟨3, 1, .DEPOSIT, 50, .COMPLETED⟩],
        [⟨3, 1, .DEPOSIT, 50, .COMPLETED⟩], [], [(7, 3)], 4⟩,
       .ok ⟨3, 1, .DEPOSIT, 50, .COMPLETED⟩) ∧
    transfer ⟨⟨[⟨1, 100, 1⟩], []⟩, [⟨3, 1, .DEPOSIT, 50, .COMPLETED⟩],
      [⟨3, 1, .DEPOSIT, 50, .COMPLETED⟩], [], [(7, 3)], 4⟩ (some 7) 1 50 "HAPPY_MONEY" (.reject 400) =
      (⟨⟨[⟨1, 100, 1⟩], []⟩, [⟨3, 1, .DEPOSIT, 50, .COMPLETED⟩],
        [⟨3, 1, .DEPOSIT, 50, .COMPLETED⟩], [], [(7, 3)], 4⟩,
       .ok ⟨3, 1, .DEPOSIT, 50, .COMPLETED⟩) ∧
    contribute ⟨⟨[⟨1, 100, 1⟩], []⟩, [⟨3, 1, .DEPOSIT, 50, .COMPLETED⟩],
      [⟨3, 1, .DEPOSIT, 50, .COMPLETED⟩], [], [(7, 3)], 4⟩ (some 7) 1 5 50 (.error 500) =
      (⟨⟨[⟨1, 100, 1⟩], []⟩, [⟨3, 1, .DEPOSIT, 50, .COMPLETED⟩],
        [⟨3, 1, .DEPOSIT, 50, .COMPLETED⟩], [], [(7, 3)], 4⟩,
       .ok ⟨3, 1, .DEPOSIT, 50, .COMPLETED⟩) ∧
    transferP2P ⟨⟨[⟨1, 100, 1⟩], []⟩, [⟨3, 1, .DEPOSIT, 50, .COMPLETED⟩],
      [⟨3, 1, .DEPOSIT, 50, .COMPLETED⟩], [], [(7, 3)], 4⟩ (some 7) 1 50 (.error 404) =
      (⟨⟨[⟨1, 100, 1⟩], []⟩, [⟨3, 1, .DEPOSIT, 50, .COMPLETED⟩],
        [⟨3, 1, .DEPOSIT, 50, .COMPLETED⟩], [], [(7, 3)], 4⟩,
       .ok ⟨3, 1, .DEPOSIT, 50, .COMPLETED⟩) := by
  have h := C3_idempotent_replay
  have hamt : ¬ (50 : ℚ) ≤ 0 := by norm_num
  have hk : lookupIdem [(7, 3)] 7 = some 3 := by simp [lookupIdem, List.find?]
  have htx : getTransactionById ⟨⟨[⟨1, 100, 1⟩], []⟩, [⟨3, 1, .DEPOSIT, 50, .COMPLETED⟩],
      [⟨3, 1, .DEPOSIT, 50, .COMPLETED⟩], [], [(7, 3)], 4⟩ 3 =
      some ⟨3, 1, .DEPOSIT, 50, .COMPLETED⟩ := by
    simp [getTransactionById, List.find?]
  refine ⟨hamt, hk, htx, ?_, ?_, ?_, ?_⟩
  · exact h.1 _ 7 1 3 _ 50 hamt hk htx
  · exact h.2.1 _ 7 1 "HAPPY_MONEY" (.reject 400) 3 _ 50 hamt (by decide) hk htx
  · exact h.2.2.1 _ 7 1 5 (.error 500) 3 _ 50 hamt hk htx
  · exact h.2.2.2.1 _ 7 1 (.error 404) 3 _ 50 hamt hk htx

/-! ## Claim C4 -/

/-- Claim C4: for an external transfer that reaches the bank (fresh key,
funds check passed), a bank rejection leaves the Balance Store untouched
(no debit happened, nothing to compensate), surfaces the rejection code,
and finalizes the primary ledger record to a FAILED status; and whenever
the operation returns a successful transaction for a fresh key, the bank
accepted it and only then was the sender debited by exactly the amount. -/
theorem C4_external_transfer_order (w : World) (key uid : Nat) (amount : ℚ) (toBank : String)
    (hamt : ¬ amount ≤ 0)
    (hbank : (toBank == "HAPPY_MONEY") = true)
    (hmiss : lookupIdem w.idempotency_keys key = none)
    (hcheck : checkFunds w.balances uid amount = .ok ()) :
    (∀ c,
      (transfer w (some key) uid amount toBank (.reject c)).1.balances = w.balances ∧
      (transfer w (some key) uid amount toBank (.reject c)).2 = .error c ∧
      getTransactionById (transfer w (some key) uid amount toBank (.reject c)).1 w.nextId =
        some ⟨w.nextId, uid, .TRANSFER, amount, failStatusFor c⟩ ∧
      (failStatusFor c).isFailed = true) ∧
    (∀ bank w1 tx, transfer w (some key) uid amount toBank bank = (w1, .ok tx) →
      (∃ rid, bank = .accept rid) ∧
      ∃ acct, findAccount w.balances uid = some acct ∧
        findAccount w1.balances uid = some { acct with balance := acct.balance - amount }) := by
  obtain ⟨acct, hacct, hfunds⟩ := checkFunds_ok_inv w.balances uid amount hcheck
  constructor
  · intro c
    have h := transfer_reject_run w key uid amount toBank c hamt hbank hmiss hcheck
    exact ⟨h.1, h.2.1, h.2.2, isFailed_failStatusFor c⟩
  · intro bank w1 tx heq
    cases bank with
    | reject c =>
        have h2 := (transfer_reject_run w key uid amount toBank c hamt hbank hmiss hcheck).2.1
        rw [heq] at h2
        simp at h2
    | network =>
        have h2 : (transfer w (some key) uid amount toBank .network).2 = .error 503 := by
          simp [transfer, hamt, hbank, hmiss, hcheck]
        rw [heq] at h2
        simp at h2
    | accept rid =>
        have h0 := transfer_first_run w key uid amount toBank rid acct hamt hbank hmiss hacct hfunds
        rw [heq] at h0
        simp only [Prod.mk.injEq] at h0
        obtain ⟨h1, _⟩ := h0
        refine ⟨⟨rid, rfl⟩, acct, hacct, ?_⟩
        rw [h1]
        simp [findAccount_after_write, hacct]

/-- Concrete instantiation: account with balance 100, amount 60, bank
rejects with a 403 blocked-destination error: the balance is untouched and
the record carries a FAILED status; and a successful run debited 60. -/
theorem C4_external_transfer_order_witness :
    (¬ (60 : ℚ) ≤ 0) ∧
    (("HAPPY_MONEY" == "HAPPY_MONEY") = true) ∧
    lookupIdem ([] : List (Nat × Nat)) 7 = none ∧
    checkFunds ⟨[⟨1, 100, 1⟩], []⟩ 1 60 = .ok () ∧
    (transfer ⟨⟨[⟨1, 100, 1⟩], []⟩, [], [], [], [], 0⟩ (some 7) 1 60 "HAPPY_MONEY"
        (.reject 403)).1.balances = ⟨[⟨1, 100, 1⟩], []⟩ ∧
    (transfer ⟨⟨[⟨1, 100, 1⟩], []⟩, [], [], [], [], 0⟩ (some 7) 1 60 "HAPPY_MONEY"
        (.reject 403)).2 = .error 403 ∧
    (failStatusFor 403).isFailed = true := by
  have hamt : ¬ (60 : ℚ) ≤ 0 := by norm_num
  have hcheck : checkFunds ⟨[⟨1, 100, 1⟩], []⟩ 1 60 = .ok () := by
    norm_num [checkFunds, findAccount, List.find?]
  have h := C4_external_transfer_order ⟨⟨[⟨1, 100, 1⟩], []⟩, [], [], [], [], 0⟩ 7 1 60
    "HAPPY_MONEY" hamt (by decide) (by simp [lookupIdem]) hcheck
  have hr := h.1 403
  exact ⟨hamt, by decide, by simp [lookupIdem], hcheck, hr.1, hr.2.1, hr.2.2.2⟩

/-! ## Claim C5 -/

/-- Evaluation of a P2P transfer whose credit leg fails because the
recipient account is missing: the sender is debited and then credited
back, the call fails with 503, and no ledger row is written. -/
theorem transferP2P_credit_fail_run (w : World) (key senderId rid : Nat) (amount : ℚ)
    (sacct : Account)
    (hamt : ¬ amount ≤ 0)
    (hmiss : lookupIdem w.idempotency_keys key = none)
    (hne : (rid == senderId) = false)
    (hs : findAccount w.balances senderId = some sacct)
    (hfunds : ¬ sacct.balance < amount)
    (hr : findAccount w.balances rid = none) :
    transferP2P w (some key) senderId amount (.ok rid) =
      ({ w with balances :=
           ⟨writeAccountBalance
              (writeAccountBalance w.balances.accounts senderId (sacct.balance - amount))
              senderId ((sacct.balance - amount) + amount),
            w.balances.groups⟩ },
       .error 503) := by
  have hck := checkFunds_eval w.balances senderId amount sacct hs hfunds
  have hdb := debitBalance_ok w.balances senderId amount sacct hs hfunds
  have hrne : rid ≠ senderId := by
    intro heq
    rw [heq] at hne
    simp at hne
  have hr1 : findAccount ⟨writeAccountBalance w.balances.accounts senderId (sacct.balance - amount),
      w.balances.groups⟩ rid = none := by
    rw [findAccount_write_ne w.balances w.balances.groups senderId rid
      (sacct.balance - amount) hrne]
    exact hr
  have hcredErr : creditBalance
      ⟨writeAccountBalance w.balances.accounts senderId (sacct.balance - amount), w.balances.groups⟩
      rid amount =
      (⟨writeAccountBalance w.balances.accounts senderId (sacct.balance - amount),
        w.balances.groups⟩, .error .notFound) := by
    simp [creditBalance, hr1]
  have hs1 : findAccount ⟨writeAccountBalance w.balances.accounts senderId (sacct.balance - amount),
      w.balances.groups⟩ senderId = some { sacct with balance := sacct.balance - amount } := by
    rw [findAccount_after_write w.balances w.balances.groups senderId (sacct.balance - amount), hs]
    rfl
  have hcredRevert := creditBalance_ok
    ⟨writeAccountBalance w.balances.accounts senderId (sacct.balance - amount), w.balances.groups⟩
    senderId amount { sacct with balance := sacct.balance - amount } hs1
  simp [transferP2P, hamt, hmiss, hne, hck, hdb, hcredErr, hcredRevert]

/-- Claim C5 counterexample: sender 1 has balance 100, phone resolution
yields recipient 2 who has no balance account, so the credit leg fails
deterministically.  The sender ends with the pre-operation balance, but
no FAILED-status transaction record exists: the operation writes no
ledger row at all, refuting the exactly-one-FAILED-record part. -/
theorem C5_cex_no_failed_record :
    transferP2P ⟨⟨[⟨1, 100, 1⟩], []⟩, [], [], [], [], 0⟩ (some 7) 1 30 (.ok 2) =
      (⟨⟨[⟨1, 100, 1⟩], []⟩, [], [], [], [], 0⟩, .error 503) ∧
    ((transferP2P ⟨⟨[⟨1, 100, 1⟩], []⟩, [], [], [], [], 0⟩ (some 7) 1 30
        (.ok 2)).1.transactions.filter (fun t => t.status.isFailed)).length = 0 ∧
    (0 : Nat) ≠ 1 := by
  have h := transferP2P_credit_fail_run ⟨⟨[⟨1, 100, 1⟩], []⟩, [], [], [], [], 0⟩ 7 1 2 30
    ⟨1, 100, 1⟩ (by norm_num) (by simp [lookupIdem]) (by decide)
    (by simp [findAccount, List.find?]) (by norm_num) (by simp [findAccount, List.find?])
  refine ⟨?_, ?_, by decide⟩
  · rw [h]
    norm_num [writeAccountBalance]
  · rw [h]
    simp

/-- Claim C5 amended: when the credit leg of a P2P transfer fails (the
recipient account is missing), the sender is credited back the same
amount, so the sender account is exactly as before and the caller gets a
503; but no FAILED-status transaction record is created: the ledger
tables and the idempotency table are left completely unchanged (the code
only writes rows on the success path). -/
theorem C5_p2p_compensation_no_record (w : World) (key senderId rid : Nat) (amount : ℚ)
    (sacct : Account)
    (hamt : ¬ amount ≤ 0)
    (hmiss : lookupIdem w.idempotency_keys key = none)
    (hne : (rid == senderId) = false)
    (hs : findAccount w.balances senderId = some sacct)
    (hfunds : ¬ sacct.balance < amount)
    (hr : findAccount w.balances rid = none) :
    (transferP2P w (some key) senderId amount (.ok rid)).2 = .error 503 ∧
    findAccount (transferP2P w (some key) senderId amount (.ok rid)).1.balances senderId =
      some sacct ∧
    (transferP2P w (some key) senderId amount (.ok rid)).1.transactions = w.transactions ∧
    (transferP2P w (some key) senderId amount (.ok rid)).1.transactions_by_user =
      w.transactions_by_user ∧
    (transferP2P w (some key) senderId amount (.ok rid)).1.idempotency_keys =
      w.idempotency_keys := by
  have h := transferP2P_credit_fail_run w key senderId rid amount sacct
    hamt hmiss hne hs hfunds hr
  rw [h]
  refine ⟨rfl, ?_, rfl, rfl, rfl⟩
  have hs2 : w.balances.accounts.find? (fun a => a.user_id == senderId) = some sacct := hs
  simp [findAccount, find?_writeAccountBalance, hs2, sub_add_cancel]

/-- Concrete instantiation of the amended compensation claim. -/
theorem C5_p2p_compensation_no_record_witness :
    (¬ (30 : ℚ) ≤ 0) ∧
    lookupIdem ([] : List (Nat × Nat)) 7 = none ∧
    ((2 == 1) = false) ∧
    findAccount ⟨[⟨1, 100, 1⟩], []⟩ 1 = some ⟨1, 100, 1⟩ ∧
    findAccount ⟨[⟨1, 100, 1⟩], []⟩ 2 = none ∧
    (transferP2P ⟨⟨[⟨1, 100, 1⟩], []⟩, [], [], [], [], 0⟩ (some 7) 1 30 (.ok 2)).2 =
      .error 503 ∧
    findAccount (transferP2P ⟨⟨[⟨1, 100, 1⟩], []⟩, [], [], [], [], 0⟩ (some 7) 1 30
      (.ok 2)).1.balances 1 = some ⟨1, 100, 1⟩ ∧
    (transferP2P ⟨⟨[⟨1, 100, 1⟩], []⟩, [], [], [], [], 0⟩ (some 7) 1 30
      (.ok 2)).1.transactions = [] := by
  have h := C5_p2p_compensation_no_record ⟨⟨[⟨1, 100, 1⟩], []⟩, [], [], [], [], 0⟩ 7 1 2 30
    ⟨1, 100, 1⟩ (by norm_num) (by simp [lookupIdem]) (by decide)
    (by simp [findAccount, List.find?]) (by norm_num) (by simp [findAccount, List.find?])
  exact ⟨by norm_num, by simp [lookupIdem], by decide, by simp [findAccount, List.find?],
    by simp [findAccount, List.find?], h.1, h.2.1, h.2.2.1⟩

/-! ## Claim C6 -/

/-- Claim C6 counterexample: a successful loan of principal 100 stores
interest_rate 5 (a percentage) and outstanding_balance 105, but the claim
reads the stored interest_rate field directly: 100 times (1 plus 5) is
600, not 105, so outstanding_balance differs from principal times one
plus the stored rate. -/
theorem C6_cex_interest_rate_units :
    (requestLoan ⟨[], 1⟩ ⟨[⟨1, 0, 1⟩], []⟩ 1 100).2 =
      .ok ⟨1, 1, 100, 105, 5, .ACTIVE⟩ ∧
    (105 : ℚ) ≠ 100 * (1 + 5) := by
  constructor
  · norm_num [requestLoan, MAX_LOAN, INTEREST_RATE, findActiveLoan, creditBalance, findAccount,
      writeAccountBalance, List.find?]
  · norm_num

/-- Claim C6 amended: a successful loan request with principal P stores
status ACTIVE, principal P, the interest rate as a percentage (5), and
outstanding_balance equal to P times (1 plus interest_rate divided by
100), which is strictly positive; and the outstanding balance collapses
to zero exactly on full payment: a successful payment debits the account
by exactly the pre-payment outstanding balance, zeroes it and marks the
loan PAID. -/
theorem C6_loan_invariant (ldb : LoanDB) (db : BalanceDB) (uid : Nat) (p : ℚ) :
    (∀ s loan, requestLoan ldb db uid p = (s, .ok loan) →
      loan.principal_amount = p ∧
      loan.interest_rate = 5 ∧
      loan.status = .ACTIVE ∧
      loan.outstanding_balance = loan.principal_amount * (1 + loan.interest_rate / 100) ∧
      0 < loan.outstanding_balance) ∧
    (∀ s loan, payLoan ldb db uid = (s, .ok loan) →
      loan.outstanding_balance = 0 ∧
      loan.status = .PAID ∧
      ∃ pre acct, findActiveLoan ldb.loans uid = some pre ∧
        findAccount db uid = some acct ∧
        findAccount s.2 uid = some { acct with balance := acct.balance - pre.outstanding_balance }) := by
  constructor
  · intro s loan h
    unfold requestLoan at h
    by_cases h0 : p ≤ 0
    · simp [h0] at h
    · rw [if_neg h0] at h
      by_cases h1 : MAX_LOAN < p
      · simp [h1] at h
      · rw [if_neg h1] at h
        cases hfa : findActiveLoan ldb.loans uid with
        | some lo => rw [hfa] at h; simp at h
        | none =>
            rw [hfa] at h
            rcases hcb : creditBalance db uid p with ⟨db1, r⟩
            cases r with
            | error e => rw [hcb] at h; simp at h
            | ok v =>
                rw [hcb] at h
                simp only [Prod.mk.injEq, Except.ok.injEq] at h
                obtain ⟨hs, hl⟩ := h
                subst hl
                have hp : 0 < p := not_le.mp h0
                refine ⟨rfl, ?_, rfl, ?_, ?_⟩
                · norm_num [INTEREST_RATE]
                · norm_num [INTEREST_RATE]
                · simp only [INTEREST_RATE]
                  nlinarith
  · intro s loan h
    unfold payLoan at h
    cases hfa : findActiveLoan ldb.loans uid with
    | none => simp only [hfa] at h; simp at h
    | some pre =>
        simp only [hfa] at h
        cases hacct : findAccount db uid with
        | none =>
            have hdbe : debitBalance db uid pre.outstanding_balance = (db, .error .notFound) := by
              simp [debitBalance, hacct]
            rw [hdbe] at h
            simp at h
        | some acct =>
            by_cases hlt : acct.balance < pre.outstanding_balance
            · have hdbe : debitBalance db uid pre.outstanding_balance =
                  (db, .error .insufficientFunds) := by
                simp [debitBalance, hacct, hlt]
              rw [hdbe] at h
              simp at h
            · have hdbe := debitBalance_ok db uid pre.outstanding_balance acct hacct hlt
              rw [hdbe] at h
              simp only [Prod.mk.injEq, Except.ok.injEq] at h
              obtain ⟨hs, hl⟩ := h
              subst hl
              refine ⟨rfl, rfl, pre, acct, rfl, rfl, ?_⟩
              rw [← hs]
              simp [findAccount_after_write, hacct]

/-- Concrete instantiation: loan of 100 produces outstanding 105 at
stored rate 5 percent; paying it debits exactly 105 from a balance of 200
and marks the loan PAID. -/
theorem C6_loan_invariant_witness :
    requestLoan ⟨[], 1⟩ ⟨[⟨1, 0, 1⟩], []⟩ 1 100 =
      ((⟨[⟨1, 1, 100, 105, 5, .ACTIVE⟩], 2⟩, ⟨[⟨1, 100, 1⟩], []⟩),
       .ok ⟨1, 1, 100, 105, 5, .ACTIVE⟩) ∧
    ((⟨1, 1, 100, 105, 5, .ACTIVE⟩ : Loan).outstanding_balance =
      (⟨1, 1, 100, 105, 5, .ACTIVE⟩ : Loan).principal_amount *
        (1 + (⟨1, 1, 100, 105, 5, .ACTIVE⟩ : Loan).interest_rate / 100)) ∧
    payLoan ⟨[⟨1, 1, 100, 105, 5, .ACTIVE⟩], 2⟩ ⟨[⟨1, 200, 1⟩], []⟩ 1 =
      ((⟨[⟨1, 1, 100, 0, 5, .PAID⟩], 2⟩, ⟨[⟨1, 95, 1⟩], []⟩),
       .ok ⟨1, 1, 100, 0, 5, .PAID⟩) ∧
    ((⟨1, 1, 100, 0, 5, .PAID⟩ : Loan).outstanding_balance = 0) := by
  have hreq : requestLoan ⟨[], 1⟩ ⟨[⟨1, 0, 1⟩], []⟩ 1 100 =
      ((⟨[⟨1, 1, 100, 105, 5, .ACTIVE⟩], 2⟩, ⟨[⟨1, 100, 1⟩], []⟩),
       .ok ⟨1, 1, 100, 105, 5, .ACTIVE⟩) := by
    norm_num [requestLoan, MAX_LOAN, INTEREST_RATE, findActiveLoan, creditBalance, findAccount,
      writeAccountBalance, List.find?]
  have hpay : payLoan ⟨[⟨1, 1, 100, 105, 5, .ACTIVE⟩], 2⟩ ⟨[⟨1, 200, 1⟩], []⟩ 1 =
      ((⟨[⟨1, 1, 100, 0, 5, .PAID⟩], 2⟩, ⟨[⟨1, 95, 1⟩], []⟩),
       .ok ⟨1, 1, 100, 0, 5, .PAID⟩) := by
    norm_num [payLoan, findActiveLoan, LoanStatus.isActive, debitBalance, findAccount,
      writeAccountBalance, List.find?, List.map]
  have h1 := ((C6_loan_invariant ⟨[], 1⟩ ⟨[⟨1, 0, 1⟩], []⟩ 1 100).1 _ _ hreq).2.2.2.1
  have h2 := ((C6_loan_invariant ⟨[⟨1, 1, 100, 105, 5, .ACTIVE⟩], 2⟩ ⟨[⟨1, 200, 1⟩], []⟩ 1
    100).2 _ _ hpay).1
  exact ⟨hreq, h1, hpay, h2⟩

/-! ## Claim C7 -/

/-- Claim C7 counterexample: a user with balance 50 and no loans asks for
account deletion; the claim says this must fail with an
outstanding-obligation error because the balance is not zero, but the
endpoint checks only for an ACTIVE loan and deletes the account. -/
theorem C7_cex_deletion_ignores_balance :
    findAccount ⟨[⟨1, 50, 1⟩], []⟩ 1 = some ⟨1, 50, 1⟩ ∧
    (50 : ℚ) ≠ 0 ∧
    deleteAccountInternal ⟨[], 1⟩ ⟨[⟨1, 50, 1⟩], []⟩ 1 = ((⟨[], 1⟩, ⟨[], []⟩), .ok ()) := by
  refine ⟨by simp [findAccount, List.find?], by norm_num, ?_⟩
  simp [deleteAccountInternal, findActiveLoan, List.filter]

/-- Claim C7 amended: deletion is blocked exactly by an ACTIVE loan; in
that case the endpoint fails with HTTP 400 and leaves the loans and
accounts unchanged.  Without an ACTIVE loan the deletion always succeeds,
removing the loan history and the account row, with no check that the
balance is zero. -/
theorem C7_deletion_active_loan_only (ldb : LoanDB) (db : BalanceDB) (uid : Nat) :
    (∀ loan, findActiveLoan ldb.loans uid = some loan →
      deleteAccountInternal ldb db uid = ((ldb, db), .error 400)) ∧
    (findActiveLoan ldb.loans uid = none →
      deleteAccountInternal ldb db uid =
        ((⟨ldb.loans.filter (fun l => !(l.user_id == uid)), ldb.nextLoanId⟩,
          ⟨db.accounts.filter (fun a => !(a.user_id == uid)), db.groups⟩), .ok ())) := by
  constructor
  · intro loan h
    simp [deleteAccountInternal, h]
  · intro h
    simp [deleteAccountInternal, h]

/-- Concrete instantiation: an ACTIVE loan blocks deletion and changes
nothing; with no active loan, deletion succeeds even at balance 50. -/
theorem C7_deletion_active_loan_only_witness :
    findActiveLoan [⟨1, 1, 100, 105, 5, .ACTIVE⟩] 1 = some ⟨1, 1, 100, 105, 5, .ACTIVE⟩ ∧
    deleteAccountInternal ⟨[⟨1, 1, 100, 105, 5, .ACTIVE⟩], 2⟩ ⟨[⟨1, 50, 1⟩], []⟩ 1 =
      ((⟨[⟨1, 1, 100, 105, 5, .ACTIVE⟩], 2⟩, ⟨[⟨1, 50, 1⟩], []⟩), .error 400) ∧
    findActiveLoan ([] : List Loan) 1 = none ∧
    deleteAccountInternal ⟨[], 2⟩ ⟨[⟨1, 50, 1⟩], []⟩ 1 = ((⟨[], 2⟩, ⟨[], []⟩), .ok ()) := by
  have hfa : findActiveLoan [⟨1, 1, 100, 105, 5, .ACTIVE⟩] 1 =
      some ⟨1, 1, 100, 105, 5, .ACTIVE⟩ := by
    simp [findActiveLoan, LoanStatus.isActive, List.find?]
  have hno : findActiveLoan ([] : List Loan) 1 = none := by simp [findActiveLoan]
  have h1 := (C7_deletion_active_loan_only ⟨[⟨1, 1, 100, 105, 5, .ACTIVE⟩], 2⟩
    ⟨[⟨1, 50, 1⟩], []⟩ 1).1 _ hfa
  have h2 := (C7_deletion_active_loan_only ⟨[], 2⟩ ⟨[⟨1, 50, 1⟩], []⟩ 1).2 hno
  refine ⟨hfa, h1, hno, ?_⟩
  rw [h2]
  simp [List.filter]

/-! ## Claim C8 -/

/-- Claim C8 counterexample: key 7 is registered against transaction 1;
a second registration of key 7 against transaction 2 succeeds silently
and the mapping now resolves to 2: the mapping was overwritten, and the
registration did not fail. -/
theorem C8_cex_silent_overwrite :
    lookupIdem [(7, 1)] 7 = some 1 ∧
    registerIdem [(7, 1)] 7 2 = [(7, 2), (7, 1)] ∧
    lookupIdem (registerIdem [(7, 1)] 7 2) 7 = some 2 ∧
    (some 2 : Option Nat) ≠ some 1 := by
  refine ⟨by decide, rfl, by decide, by decide⟩

/-- Claim C8 amended: registration is a plain Cassandra INSERT, i.e. an
unconditional upsert: it always succeeds, and afterwards the key resolves
to the newly registered transaction id, overwriting any previous mapping;
mappings of other keys are unaffected.  Safety of the registered mapping
therefore rests solely on the orchestrators lookup-before-register
discipline, not on the store failing loud duplicates. -/
theorem C8_register_upsert (l : List (Nat × Nat)) (k t k' : Nat) :
    lookupIdem (registerIdem l k t) k = some t ∧
    (k' ≠ k → lookupIdem (registerIdem l k t) k' = lookupIdem l k') :=
  ⟨lookupIdem_registerIdem_self l k t,
   fun h => lookupIdem_registerIdem_ne l k t k' h⟩

/-- Concrete instantiation: overwriting key 7 while key 9 stays intact. -/
theorem C8_register_upsert_witness :
    lookupIdem (registerIdem [(7, 1), (9, 4)] 7 2) 7 = some 2 ∧
    ((9 : Nat) ≠ 7) ∧
    lookupIdem (registerIdem [(7, 1), (9, 4)] 7 2) 9 = lookupIdem [(7, 1), (9, 4)] 9 := by
  have h := C8_register_upsert [(7, 1), (9, 4)] 7 2 9
  exact ⟨h.1, by decide, h.2 (by decide)⟩

/-! ## Claim C9 -/

/-- Claim C9 refutation at the failing input: a successful external
transfer writes both projections as PENDING in one batch, but the success
finalization updates only the primary transactions table, leaving the
per-user projection at PENDING forever: after the operation returns, the
two projections of transaction 0 carry different statuses. -/
theorem C9_projection_divergence :
    transfer ⟨⟨[⟨1, 100, 1⟩], []⟩, [], [], [], [], 0⟩ (some 7) 1 50 "HAPPY_MONEY" (.accept 99) =
      (⟨⟨[⟨1, 50, 1⟩], []⟩,
        [⟨0, 1, .TRANSFER, 50, .COMPLETED⟩],
        [⟨0, 1, .TRANSFER, 50, .PENDING⟩],
        [], [(7, 0)], 1⟩,
       .ok ⟨0, 1, .TRANSFER, 50, .COMPLETED⟩) ∧
    TxStatus.COMPLETED ≠ TxStatus.PENDING := by
  have h := transfer_first_run ⟨⟨[⟨1, 100, 1⟩], []⟩, [], [], [], [], 0⟩ 7 1 50 "HAPPY_MONEY" 99
    ⟨1, 100, 1⟩ (by norm_num) (by decide) (by simp [lookupIdem])
    (by simp [findAccount, List.find?]) (by norm_num)
  refine ⟨?_, by decide⟩
  rw [h]
  norm_num [writeAccountBalance, setTxStatusById, registerIdem]
